import Mathlib

/-!
Shallow embedding of the MyHDL interrupt-generator peripheral
(`interrupt_gen.py`) and of the AXI4-Lite support transducer
(`axi_support.py`), together with theorems about their register-level
and handshake behaviour.

Registers are modelled as `Nat` values; a MyHDL `intbv(0)[w:]` register of
width `w` always holds a value `< 2 ^ w`.  Per-bit assignment loops are
modelled by rebuilding the register value bit by bit (`writeBits`).
Each `always_seq` block becomes a function from the current state and the
current cycle's inputs to the next value of the register it owns; `step`
commits all of them at once (two-phase evaluate/commit).  Combinational
`always_comb` blocks become plain functions of the current state and inputs.
-/

/-- Value of a `w`-bit register rebuilt bit by bit: bit `b` (for `b < w`)
is `f b`, all higher bits are zero.  This models a MyHDL per-bit
assignment loop (`reg.next[bit] = ...` for every `bit < len(reg)`) on an
`intbv` register of width `w`. -/
def writeBits (f : Nat → Bool) : Nat → Nat
  | 0 => 0
  | w + 1 => writeBits f w ||| (if f w then 2 ^ w else 0)

theorem writeBits_lt_two_pow (f : Nat → Bool) : ∀ w, writeBits f w < 2 ^ w
  | 0 => by simp [writeBits]
  | w + 1 => by
    have h1 : writeBits f w < 2 ^ (w + 1) :=
      lt_of_lt_of_le (writeBits_lt_two_pow f w)
        (Nat.pow_le_pow_right (by norm_num) (Nat.le_succ w))
    have h2 : (if f w then 2 ^ w else 0) < 2 ^ (w + 1) := by
      split
      · exact Nat.pow_lt_pow_right (by norm_num) (Nat.lt_succ_self w)
      · exact Nat.pos_pow_of_pos _ (by norm_num)
    exact Nat.or_lt_two_pow h1 h2

theorem testBit_writeBits (f : Nat → Bool) :
    ∀ w i, (writeBits f w).testBit i = if i < w then f i else false
  | 0, i => by simp [writeBits]
  | w + 1, i => by
    rw [writeBits, Nat.testBit_or, testBit_writeBits f w i]
    by_cases hiw : i = w
    · subst hiw
      rw [if_neg (lt_irrefl i), if_pos (Nat.lt_succ_self i), Bool.false_or]
      by_cases hf : f i
      · simp [hf, Nat.testBit_two_pow]
      · simp [hf, Nat.zero_testBit]
    · have hpow : (if f w then (2 : Nat) ^ w else 0).testBit i = false := by
        split
        · simp [Nat.testBit_two_pow, Ne.symm hiw]
        · simp
      rw [hpow, Bool.or_false]
      by_cases hi : i < w
      · simp [hi, Nat.lt_succ_of_lt hi]
      · have hi1 : ¬i < w + 1 := by omega
        simp [hi, hi1]

namespace InterruptGen

/-- Register word offsets from the map base, from `interrupt_gen.py`. -/
def INTERRUPT_GEN_PERIOD1 : Nat := 0

def INTERRUPT_GEN_PERIOD2 : Nat := 1

def INTERRUPT_GEN_ISR : Nat := 2

def INTERRUPT_GEN_IER : Nat := 3

def INTERRUPT_GEN_TRIGGER : Nat := 4

/-- Bit positions of the two interrupt channels in ISR/IER/TRIGGER. -/
def INTERRUPT1_B : Nat := 0

def INTERRUPT2_B : Nat := 1

def PL_REG_WIDTH : Nat := 32

/-- The local-bus signals driven by the transducer into a peripheral each
cycle: read address, write address, write data, byte strobe, write enable
(the `axi_s` side of `AxiLocal`). -/
structure AxiLocalIn where
  raddr : Nat
  waddr : Nat
  wdata : Nat
  wstrobe : Nat
  wen : Bool

/-- The sequential state of the `interrupt_gen` block: the five registers
(`period1`, `period2` are 32-bit `intbv`; `isr`, `ier`, `trigger` are 8-bit
`intbv`) and the two 32-bit `modbv` period counters. -/
structure State where
  period1 : Nat
  period2 : Nat
  isr : Nat
  ier : Nat
  trigger : Nat
  period1_counter : Nat
  period2_counter : Nat

/-- `unpack_ier` for channel 1: `ier_interrupt1 = ier[0]`. -/
def ier_interrupt1 (s : State) : Bool := s.ier.testBit INTERRUPT1_B

/-- `unpack_ier` for channel 2: `ier_interrupt2 = ier[1]`. -/
def ier_interrupt2 (s : State) : Bool := s.ier.testBit INTERRUPT2_B

/-- `unpack_trigger` for channel 1: `trigger_interrupt1 = trigger[0]`. -/
def trigger_interrupt1 (s : State) : Bool := s.trigger.testBit INTERRUPT1_B

/-- `unpack_trigger` for channel 2: `trigger_interrupt2 = trigger[1]`. -/
def trigger_interrupt2 (s : State) : Bool := s.trigger.testBit INTERRUPT2_B

/-- `register_read`: combinational read mux.  `rdata` defaults to zero and
takes the value of the addressed register; note the source reads only
PERIOD1, PERIOD2, ISR and IER — there is no branch for TRIGGER. -/
def register_read (map_base : Nat) (s : State) (raddr : Nat) : Nat :=
  if raddr = map_base + INTERRUPT_GEN_PERIOD1 then s.period1
  else if raddr = map_base + INTERRUPT_GEN_PERIOD2 then s.period2
  else if raddr = map_base + INTERRUPT_GEN_ISR then s.isr
  else if raddr = map_base + INTERRUPT_GEN_IER then s.ier
  else 0

/-- `period1_write_decode = axi_s.wen and axi_s.waddr == interrupt_gen_period1_addr`. -/
def period1_write_decode (map_base : Nat) (i : AxiLocalIn) : Bool :=
  i.wen && decide (i.waddr = map_base + INTERRUPT_GEN_PERIOD1)

/-- `period2_write_decode`. -/
def period2_write_decode (map_base : Nat) (i : AxiLocalIn) : Bool :=
  i.wen && decide (i.waddr = map_base + INTERRUPT_GEN_PERIOD2)

/-- `isr_write_decode`. -/
def isr_write_decode (map_base : Nat) (i : AxiLocalIn) : Bool :=
  i.wen && decide (i.waddr = map_base + INTERRUPT_GEN_ISR)

/-- `ier_write_decode`. -/
def ier_write_decode (map_base : Nat) (i : AxiLocalIn) : Bool :=
  i.wen && decide (i.waddr = map_base + INTERRUPT_GEN_IER)

/-- `trigger_write_decode`. -/
def trigger_write_decode (map_base : Nat) (i : AxiLocalIn) : Bool :=
  i.wen && decide (i.waddr = map_base + INTERRUPT_GEN_TRIGGER)

/-- `period1_write`: on a decoded write, each bit of each byte lane whose
strobe bit is set takes the write-data bit; all other bits retain their
current value (the per-bit loop over `range((PL_REG_WIDTH+7)//8)` lanes). -/
def period1_write (map_base : Nat) (s : State) (i : AxiLocalIn) : Nat :=
  if period1_write_decode map_base i = true then
    writeBits (fun bit =>
      if i.wstrobe.testBit (bit / 8) then i.wdata.testBit bit
      else s.period1.testBit bit) PL_REG_WIDTH
  else s.period1

/-- `period2_write`: same shape as `period1_write`. -/
def period2_write (map_base : Nat) (s : State) (i : AxiLocalIn) : Nat :=
  if period2_write_decode map_base i = true then
    writeBits (fun bit =>
      if i.wstrobe.testBit (bit / 8) then i.wdata.testBit bit
      else s.period2.testBit bit) PL_REG_WIDTH
  else s.period2

/-- The periodic-expiry condition for channel 1, literally
`period1 != 0 and period1_counter >= period1 - 1` from `isr_write` and
`handle_period1_counter`. -/
def period1_expiry (s : State) : Prop :=
  s.period1 ≠ 0 ∧ s.period1_counter ≥ s.period1 - 1

/-- The periodic-expiry condition for channel 2. -/
def period2_expiry (s : State) : Prop :=
  s.period2 ≠ 0 ∧ s.period2_counter ≥ s.period2 - 1

instance (s : State) : Decidable (period1_expiry s) := by
  unfold period1_expiry; infer_instance

instance (s : State) : Decidable (period2_expiry s) := by
  unfold period2_expiry; infer_instance

/-- The write-1-to-clear part of `isr_write`: on a decoded write, each
strobed bit becomes `isr[bit] & ~wdata[bit]`; unstrobed bits retain their
value.  The ISR register is 8 bits wide, so the loop covers one byte lane. -/
def isr_write_w1c (map_base : Nat) (s : State) (i : AxiLocalIn) : Nat :=
  if isr_write_decode map_base i = true then
    writeBits (fun bit =>
      if i.wstrobe.testBit (bit / 8) then s.isr.testBit bit && !i.wdata.testBit bit
      else s.isr.testBit bit) 8
  else s.isr

/-- `isr_write`: the W1C write is applied first, then (textually after it,
hence overriding it) bit 0 is forced high on a channel-1 expiry or trigger
and bit 1 on a channel-2 expiry or trigger. -/
def isr_write (map_base : Nat) (s : State) (i : AxiLocalIn) : Nat :=
  let w1 :=
    if period1_expiry s ∨ trigger_interrupt1 s = true then
      isr_write_w1c map_base s i ||| 2 ^ INTERRUPT1_B
    else isr_write_w1c map_base s i
  if period2_expiry s ∨ trigger_interrupt2 s = true then w1 ||| 2 ^ INTERRUPT2_B
  else w1

/-- `ier_write`: a plain byte-strobed write of the 8-bit IER register. -/
def ier_write (map_base : Nat) (s : State) (i : AxiLocalIn) : Nat :=
  if ier_write_decode map_base i = true then
    writeBits (fun bit =>
      if i.wstrobe.testBit (bit / 8) then i.wdata.testBit bit
      else s.ier.testBit bit) 8
  else s.ier

/-- `trigger_write`: on a decoded write the 8-bit register takes the
byte-strobed data (unstrobed lanes retain their value); otherwise bit 0 is
cleared when `trigger_interrupt1` is asserted and bit 1 when
`trigger_interrupt2` is asserted, all other bits retaining their value. -/
def trigger_write (map_base : Nat) (s : State) (i : AxiLocalIn) : Nat :=
  if trigger_write_decode map_base i = true then
    writeBits (fun bit =>
      if i.wstrobe.testBit (bit / 8) then i.wdata.testBit bit
      else s.trigger.testBit bit) 8
  else
    writeBits (fun bit =>
      if bit = INTERRUPT1_B ∧ trigger_interrupt1 s = true then false
      else if bit = INTERRUPT2_B ∧ trigger_interrupt2 s = true then false
      else s.trigger.testBit bit) 8

/-- `handle_period1_counter`: held at zero while `period1` is zero, reset to
zero the cycle the counter reaches `period1 - 1`, incremented otherwise
(the counter is a 32-bit `modbv`, hence the wrap). -/
def handle_period1_counter (s : State) : Nat :=
  if s.period1 = 0 then 0
  else if s.period1_counter ≥ s.period1 - 1 then 0
  else (s.period1_counter + 1) % 2 ^ PL_REG_WIDTH

/-- `handle_period2_counter`. -/
def handle_period2_counter (s : State) : Nat :=
  if s.period2 = 0 then 0
  else if s.period2_counter ≥ s.period2 - 1 then 0
  else (s.period2_counter + 1) % 2 ^ PL_REG_WIDTH

/-- One clock edge: every `always_seq` block's next value is computed from
the same pre-edge state and inputs, then committed atomically. -/
def step (map_base : Nat) (s : State) (i : AxiLocalIn) : State :=
  { period1 := period1_write map_base s i
    period2 := period2_write map_base s i
    isr := isr_write map_base s i
    ier := ier_write map_base s i
    trigger := trigger_write map_base s i
    period1_counter := handle_period1_counter s
    period2_counter := handle_period2_counter s }

/-- `assigninterrupt_out` for channel 1: `ier_interrupt1 and isr[0]`. -/
def interrupt1_out (s : State) : Bool :=
  ier_interrupt1 s && s.isr.testBit INTERRUPT1_B

/-- `assigninterrupt_out` for channel 2. -/
def interrupt2_out (s : State) : Bool :=
  ier_interrupt2 s && s.isr.testBit INTERRUPT2_B

/-- `axi_passthrough`: when a downstream block is attached (`axi_m` is not
`None`, modelled by `some` of the downstream read data) the upstream
signals are forwarded to it unchanged and the upstream read data is the OR
of the downstream read data with this block's `rdata`; with no downstream
block the upstream read data is `rdata` alone. -/
def axi_passthrough (axi_s : AxiLocalIn) (m_rdata : Option Nat) (rdata : Nat) :
    Option AxiLocalIn × Nat :=
  match m_rdata with
  | some mr => (some axi_s, mr ||| rdata)
  | none => (none, rdata)

end InterruptGen

namespace InterruptGen

theorem testBit_one_eq (b : Nat) : Nat.testBit 1 b = decide (0 = b) := by
  rw [show (1 : Nat) = 2 ^ 0 from rfl, Nat.testBit_two_pow]

theorem testBit_two_eq (b : Nat) : Nat.testBit 2 b = decide (1 = b) := by
  rw [show (2 : Nat) = 2 ^ 1 from rfl, Nat.testBit_two_pow]

theorem isr_write_set1 (map_base : Nat) (s : State) (i : AxiLocalIn)
    (h : period1_expiry s ∨ trigger_interrupt1 s = true) :
    (isr_write map_base s i).testBit INTERRUPT1_B = true := by
  by_cases h2 : period2_expiry s ∨ trigger_interrupt2 s = true <;>
    simp [isr_write, h, h2, Nat.testBit_or, testBit_one_eq, testBit_two_eq,
      INTERRUPT1_B, INTERRUPT2_B]

theorem isr_write_set2 (map_base : Nat) (s : State) (i : AxiLocalIn)
    (h : period2_expiry s ∨ trigger_interrupt2 s = true) :
    (isr_write map_base s i).testBit INTERRUPT2_B = true := by
  by_cases h1 : period1_expiry s ∨ trigger_interrupt1 s = true <;>
    simp [isr_write, h, h1, Nat.testBit_or, testBit_one_eq, testBit_two_eq,
      INTERRUPT1_B, INTERRUPT2_B]

theorem isr_write_bit0_no_set (map_base : Nat) (s : State) (i : AxiLocalIn)
    (h : ¬(period1_expiry s ∨ trigger_interrupt1 s = true)) :
    (isr_write map_base s i).testBit INTERRUPT1_B
      = (isr_write_w1c map_base s i).testBit INTERRUPT1_B := by
  by_cases h2 : period2_expiry s ∨ trigger_interrupt2 s = true <;>
    simp [isr_write, h, h2, Nat.testBit_or, testBit_one_eq, testBit_two_eq,
      INTERRUPT1_B, INTERRUPT2_B]

theorem isr_write_bit1_no_set (map_base : Nat) (s : State) (i : AxiLocalIn)
    (h : ¬(period2_expiry s ∨ trigger_interrupt2 s = true)) :
    (isr_write map_base s i).testBit INTERRUPT2_B
      = (isr_write_w1c map_base s i).testBit INTERRUPT2_B := by
  by_cases h1 : period1_expiry s ∨ trigger_interrupt1 s = true <;>
    simp [isr_write, h, h1, Nat.testBit_or, testBit_one_eq, testBit_two_eq,
      INTERRUPT1_B, INTERRUPT2_B]

theorem isr_write_high_bits (map_base : Nat) (s : State) (i : AxiLocalIn)
    (b : Nat) (hb : 2 ≤ b) :
    (isr_write map_base s i).testBit b
      = (isr_write_w1c map_base s i).testBit b := by
  have h0 : (0 : Nat) ≠ b := by omega
  have h1 : (1 : Nat) ≠ b := by omega
  by_cases c1 : period1_expiry s ∨ trigger_interrupt1 s = true <;>
    by_cases c2 : period2_expiry s ∨ trigger_interrupt2 s = true <;>
    simp [isr_write, c1, c2, Nat.testBit_or, testBit_one_eq, testBit_two_eq,
      INTERRUPT1_B, INTERRUPT2_B, h0, h1]

theorem isr_write_w1c_of_decode (map_base : Nat) (s : State) (i : AxiLocalIn)
    (hdec : isr_write_decode map_base i = true) (b : Nat) (hb : b < 8) :
    (isr_write_w1c map_base s i).testBit b
      = if i.wstrobe.testBit (b / 8) then s.isr.testBit b && !i.wdata.testBit b
        else s.isr.testBit b := by
  simp [isr_write_w1c, hdec, testBit_writeBits, hb]

theorem isr_write_w1c_no_decode (map_base : Nat) (s : State) (i : AxiLocalIn)
    (hdec : isr_write_decode map_base i = false) :
    isr_write_w1c map_base s i = s.isr := by
  simp [isr_write_w1c, hdec]

end InterruptGen

open InterruptGen in
/-- Claim C1: in any cycle in which a write targets the ISR register and, in
the same cycle, a channel's periodic-expiry condition holds or that
channel's trigger bit is asserted, the channel's ISR bit is high after the
clock edge, whatever the write data carried in that bit position — the
forced set is applied after the write-1-to-clear, so it wins. -/
theorem C1_isr_same_cycle_priority (map_base : Nat) (s : State) (i : AxiLocalIn)
    (hwen : i.wen = true) (haddr : i.waddr = map_base + INTERRUPT_GEN_ISR) :
    (period1_expiry s ∨ trigger_interrupt1 s = true →
      ((step map_base s i).isr).testBit INTERRUPT1_B = true)
    ∧ (period2_expiry s ∨ trigger_interrupt2 s = true →
      ((step map_base s i).isr).testBit INTERRUPT2_B = true) :=
  ⟨fun h => isr_write_set1 map_base s i h, fun h => isr_write_set2 map_base s i h⟩

/-- State for the C1 witness: trigger bit 0 and ISR bit 1 set, PERIOD2
expiring this cycle. -/
def c1State : InterruptGen.State :=
  { period1 := 0, period2 := 5, isr := 2, ier := 0, trigger := 1
    period1_counter := 0, period2_counter := 4 }

/-- Input for the C1 witness: a strobed write of all-ones to ISR, which
would clear every bit were it not for the same-cycle forced sets. -/
def c1In : InterruptGen.AxiLocalIn :=
  { raddr := 0, waddr := 2, wdata := 255, wstrobe := 15, wen := true }

open InterruptGen in
theorem C1_isr_same_cycle_priority_witness :
    ((step 0 c1State c1In).isr).testBit INTERRUPT1_B = true
    ∧ ((step 0 c1State c1In).isr).testBit INTERRUPT2_B = true :=
  ⟨(C1_isr_same_cycle_priority 0 c1State c1In rfl (by decide)).1 (Or.inr (by decide)),
   (C1_isr_same_cycle_priority 0 c1State c1In rfl (by decide)).2 (Or.inl (by decide))⟩

open InterruptGen in
/-- Claim C3: in any cycle in which a write with byte lane 0 strobed targets
the ISR register and a channel sees neither a periodic expiry nor an
asserted trigger bit, that channel's ISR bit after the edge is its old
value AND NOT the write-data bit (write 1 clears, write 0 leaves). -/
theorem C3_write_one_to_clear (map_base : Nat) (s : State) (i : AxiLocalIn)
    (hwen : i.wen = true) (haddr : i.waddr = map_base + INTERRUPT_GEN_ISR)
    (hstrobe : i.wstrobe.testBit 0 = true) :
    (¬(period1_expiry s ∨ trigger_interrupt1 s = true) →
      ((step map_base s i).isr).testBit INTERRUPT1_B
        = (s.isr.testBit INTERRUPT1_B && !i.wdata.testBit INTERRUPT1_B))
    ∧ (¬(period2_expiry s ∨ trigger_interrupt2 s = true) →
      ((step map_base s i).isr).testBit INTERRUPT2_B
        = (s.isr.testBit INTERRUPT2_B && !i.wdata.testBit INTERRUPT2_B)) := by
  have hdec : isr_write_decode map_base i = true := by
    simp [isr_write_decode, hwen, haddr]
  constructor
  · intro h
    have := isr_write_bit0_no_set map_base s i h
    rw [show ((step map_base s i).isr) = isr_write map_base s i from rfl, this,
      isr_write_w1c_of_decode map_base s i hdec INTERRUPT1_B (by decide)]
    simp [INTERRUPT1_B, hstrobe]
  · intro h
    have := isr_write_bit1_no_set map_base s i h
    rw [show ((step map_base s i).isr) = isr_write map_base s i from rfl, this,
      isr_write_w1c_of_decode map_base s i hdec INTERRUPT2_B (by decide)]
    simp [INTERRUPT2_B, hstrobe]

/-- State for the C3 witness: both ISR bits set, no expiry, no trigger. -/
def c3State : InterruptGen.State :=
  { period1 := 0, period2 := 0, isr := 3, ier := 0, trigger := 0
    period1_counter := 0, period2_counter := 0 }

/-- Input for the C3 witness: write 1 to ISR bit 0 and 0 to ISR bit 1. -/
def c3In : InterruptGen.AxiLocalIn :=
  { raddr := 0, waddr := 2, wdata := 1, wstrobe := 1, wen := true }

open InterruptGen in
theorem C3_write_one_to_clear_witness :
    ((step 0 c3State c3In).isr).testBit INTERRUPT1_B = false
    ∧ ((step 0 c3State c3In).isr).testBit INTERRUPT2_B = true := by
  have h := C3_write_one_to_clear 0 c3State c3In rfl (by decide) (by decide)
  exact ⟨(h.1 (by decide)).trans (by decide), (h.2 (by decide)).trans (by decide)⟩

open InterruptGen in
/-- Claim C10: the expiry test is an inequality, not an equality — whenever
PERIOD1 is nonzero and the counter is already at or above PERIOD1 − 1 (for
instance just after PERIOD1 was rewritten to a smaller nonzero value), the
next clock edge forces ISR bit 0 high and resets the counter to zero,
without waiting for a wrap-around, for every input. -/
theorem C10_early_expiry (map_base : Nat) (s : State) (i : AxiLocalIn)
    (hp : s.period1 ≠ 0) (hc : s.period1_counter ≥ s.period1 - 1) :
    ((step map_base s i).isr).testBit INTERRUPT1_B = true
    ∧ (step map_base s i).period1_counter = 0 := by
  constructor
  · exact isr_write_set1 map_base s i (Or.inl ⟨hp, hc⟩)
  · show handle_period1_counter s = 0
    simp [handle_period1_counter, hp, hc]

/-- State for the C10 witness: PERIOD1 was shrunk to 5 while the counter
already sits at 100. -/
def c10State : InterruptGen.State :=
  { period1 := 5, period2 := 0, isr := 0, ier := 0, trigger := 0
    period1_counter := 100, period2_counter := 0 }

/-- An idle local-bus input (no write). -/
def idleIn : InterruptGen.AxiLocalIn :=
  { raddr := 0, waddr := 0, wdata := 0, wstrobe := 0, wen := false }

open InterruptGen in
theorem C10_early_expiry_witness :
    ((step 0 c10State idleIn).isr).testBit INTERRUPT1_B = true
    ∧ (step 0 c10State idleIn).period1_counter = 0 :=
  C10_early_expiry 0 c10State idleIn (by decide) (by decide)

/-- State for the C4 counterexample: every register holds a distinct
nonzero value; in particular TRIGGER holds 1. -/
def c4State : InterruptGen.State :=
  { period1 := 11, period2 := 22, isr := 3, ier := 2, trigger := 1
    period1_counter := 0, period2_counter := 0 }

open InterruptGen in
/-- Claim C4 counterexample: the claim says the read mux returns the
current value of the addressed register for every register of the map,
TRIGGER at offset 4 included; but `register_read` has no TRIGGER branch,
so reading offset 4 returns 0 while the TRIGGER register holds 1. -/
theorem C4_counterexample :
    register_read 0 c4State (0 + INTERRUPT_GEN_TRIGGER) = 0
    ∧ c4State.trigger = 1 := by decide

open InterruptGen in
/-- Claim C4 (amended): the combinational read-data contribution equals the
current value of the addressed register for PERIOD1, PERIOD2, ISR and IER
(offsets 0–3 from the base); reads of the write-only TRIGGER register at
offset 4 and of any non-matching address return zero. -/
theorem C4_combinational_read (map_base : Nat) (s : State) (a : Nat) :
    register_read map_base s (map_base + INTERRUPT_GEN_PERIOD1) = s.period1
    ∧ register_read map_base s (map_base + INTERRUPT_GEN_PERIOD2) = s.period2
    ∧ register_read map_base s (map_base + INTERRUPT_GEN_ISR) = s.isr
    ∧ register_read map_base s (map_base + INTERRUPT_GEN_IER) = s.ier
    ∧ register_read map_base s (map_base + INTERRUPT_GEN_TRIGGER) = 0
    ∧ (a ≠ map_base + INTERRUPT_GEN_PERIOD1 → a ≠ map_base + INTERRUPT_GEN_PERIOD2 →
        a ≠ map_base + INTERRUPT_GEN_ISR → a ≠ map_base + INTERRUPT_GEN_IER →
        register_read map_base s a = 0) := by
  simp only [register_read, INTERRUPT_GEN_PERIOD1, INTERRUPT_GEN_PERIOD2,
    INTERRUPT_GEN_ISR, INTERRUPT_GEN_IER, INTERRUPT_GEN_TRIGGER]
  refine ⟨?_, ?_, ?_, ?_, ?_, ?_⟩ <;>
    (split_ifs <;> first | rfl | omega)

open InterruptGen in
theorem C4_combinational_read_witness :
    register_read 0 c4State 9 = 0 :=
  (C4_combinational_read 0 c4State 9).2.2.2.2.2
    (by decide) (by decide) (by decide) (by decide)

/-- The all-zero reset state of the peripheral. -/
def zeroState : InterruptGen.State :=
  { period1 := 0, period2 := 0, isr := 0, ier := 0, trigger := 0
    period1_counter := 0, period2_counter := 0 }

/-- Input for the C5 counterexample: a byte-0-strobed write of 4 (bit 2)
to the IER register. -/
def c5In : InterruptGen.AxiLocalIn :=
  { raddr := 0, waddr := 3, wdata := 4, wstrobe := 1, wen := true }

open InterruptGen in
/-- Claim C5 counterexample: the claim says write-data bits 2–7 of
ISR/IER/TRIGGER writes have no observable effect and those bits read back
as zero; but writing 4 to IER stores bit 2, and a subsequent read of IER
returns 4 with bit 2 high. -/
theorem C5_counterexample :
    register_read 0 (step 0 zeroState c5In) (0 + INTERRUPT_GEN_IER) = 4
    ∧ (register_read 0 (step 0 zeroState c5In)
        (0 + INTERRUPT_GEN_IER)).testBit 2 = true := by decide

open InterruptGen in
/-- Claim C5 (amended): bits 2–7 of ISR can never become set (the W1C write
only clears bits and the forced sets touch only bits 0 and 1), so they
always read back as zero from the reset state; the TRIGGER register is not
readable at all (its address returns zero); but bits 2–7 of IER are
ordinary read/write bits — a strobed write stores them and they read back. -/
theorem C5_reserved_bits (map_base : Nat) (s : State) (i : AxiLocalIn)
    (b : Nat) (hb2 : 2 ≤ b) (hb8 : b < 8) :
    (s.isr.testBit b = false → ((step map_base s i).isr).testBit b = false)
    ∧ register_read map_base s (map_base + INTERRUPT_GEN_TRIGGER) = 0
    ∧ (ier_write_decode map_base i = true → i.wstrobe.testBit 0 = true →
        ((step map_base s i).ier).testBit b = i.wdata.testBit b) := by
  refine ⟨?_, ?_, ?_⟩
  · intro hisr
    rw [show ((step map_base s i).isr) = isr_write map_base s i from rfl,
      isr_write_high_bits map_base s i b hb2]
    unfold isr_write_w1c
    split
    · rw [testBit_writeBits _ 8 b, if_pos hb8]
      have hdiv : b / 8 = 0 := Nat.div_eq_of_lt hb8
      rw [hdiv]
      split <;> simp [hisr]
    · exact hisr
  · simp only [register_read, INTERRUPT_GEN_PERIOD1, INTERRUPT_GEN_PERIOD2,
      INTERRUPT_GEN_ISR, INTERRUPT_GEN_IER, INTERRUPT_GEN_TRIGGER]
    split_ifs <;> first | rfl | omega
  · intro hdec hstrobe
    show (ier_write map_base s i).testBit b = i.wdata.testBit b
    unfold ier_write
    rw [if_pos hdec, testBit_writeBits _ 8 b, if_pos hb8,
      Nat.div_eq_of_lt hb8, hstrobe]
    simp

open InterruptGen in
theorem C5_reserved_bits_witness :
    ((step 0 zeroState c5In).isr).testBit 2 = false
    ∧ ((step 0 zeroState c5In).ier).testBit 2 = true := by
  have h := C5_reserved_bits 0 zeroState c5In 2 (by decide) (by decide)
  exact ⟨h.1 (by decide),
    (h.2.2 (by decide) (by decide)).trans (by decide)⟩

open InterruptGen in
/-- Claim C7: on a cycle whose write targets the TRIGGER register, TRIGGER
takes the strobe-masked written value (strobed lanes take the data,
unstrobed lanes keep their value); on a cycle with no write to TRIGGER,
every trigger bit currently asserted — which forces the matching ISR bit
high at this same edge — is cleared at the edge, the other bits keeping
their value.  So a software-set trigger bit sets the ISR bit and clears
itself one cycle after firing unless TRIGGER is simultaneously rewritten. -/
theorem C7_trigger_self_clear (map_base : Nat) (s : State) (i : AxiLocalIn)
    (b : Nat) (hb : b < 8) :
    (trigger_write_decode map_base i = true →
      ((step map_base s i).trigger).testBit b
        = if i.wstrobe.testBit (b / 8) then i.wdata.testBit b
          else s.trigger.testBit b)
    ∧ (trigger_write_decode map_base i = false →
        (s.trigger.testBit INTERRUPT1_B = true →
          ((step map_base s i).trigger).testBit INTERRUPT1_B = false)
        ∧ (s.trigger.testBit INTERRUPT2_B = true →
          ((step map_base s i).trigger).testBit INTERRUPT2_B = false)
        ∧ (2 ≤ b → ((step map_base s i).trigger).testBit b = s.trigger.testBit b))
    ∧ (s.trigger.testBit INTERRUPT1_B = true →
        ((step map_base s i).isr).testBit INTERRUPT1_B = true)
    ∧ (s.trigger.testBit INTERRUPT2_B = true →
        ((step map_base s i).isr).testBit INTERRUPT2_B = true) := by
  refine ⟨?_, ?_, ?_, ?_⟩
  · intro hdec
    show (trigger_write map_base s i).testBit b = _
    rw [trigger_write, if_pos hdec, testBit_writeBits _ 8 b, if_pos hb]
  · intro hdec
    have hstep : ∀ b, ((step map_base s i).trigger).testBit b
        = (writeBits (fun bit =>
            if bit = INTERRUPT1_B ∧ trigger_interrupt1 s = true then false
            else if bit = INTERRUPT2_B ∧ trigger_interrupt2 s = true then false
            else s.trigger.testBit bit) 8).testBit b := by
      intro b
      show (trigger_write map_base s i).testBit b = _
      rw [trigger_write, if_neg (by simp [hdec])]
    refine ⟨?_, ?_, ?_⟩
    · intro ht
      rw [hstep, testBit_writeBits _ 8 INTERRUPT1_B, if_pos (by decide),
        if_pos (⟨rfl, ht⟩ : INTERRUPT1_B = INTERRUPT1_B
          ∧ trigger_interrupt1 s = true)]
    · intro ht
      rw [hstep, testBit_writeBits _ 8 INTERRUPT2_B, if_pos (by decide),
        if_neg (fun h => absurd h.1 (by decide)),
        if_pos (⟨rfl, ht⟩ : INTERRUPT2_B = INTERRUPT2_B
          ∧ trigger_interrupt2 s = true)]
    · intro hb2
      rw [hstep, testBit_writeBits _ 8 b, if_pos hb]
      have h1 : ¬(b = INTERRUPT1_B ∧ trigger_interrupt1 s = true) := by
        simp only [INTERRUPT1_B]; omega
      have h2 : ¬(b = INTERRUPT2_B ∧ trigger_interrupt2 s = true) := by
        simp only [INTERRUPT2_B]; omega
      rw [if_neg h1, if_neg h2]
  · intro ht
    exact isr_write_set1 map_base s i (Or.inr ht)
  · intro ht
    exact isr_write_set2 map_base s i (Or.inr ht)

/-- State for the C7 witness: trigger bit 0 set, everything else clear. -/
def c7State : InterruptGen.State :=
  { period1 := 0, period2 := 0, isr := 0, ier := 0, trigger := 1
    period1_counter := 0, period2_counter := 0 }

open InterruptGen in
theorem C7_trigger_self_clear_witness :
    ((step 0 c7State idleIn).isr).testBit 0 = true
    ∧ ((step 0 c7State idleIn).trigger).testBit 0 = false := by
  have h := C7_trigger_self_clear 0 c7State idleIn 0 (by decide)
  exact ⟨h.2.2.1 (by decide), (h.2.1 (by decide)).1 (by decide)⟩

open InterruptGen in
/-- Claim C8: byte-strobe frame condition for the plain registers.  For a
write to PERIOD1 (likewise PERIOD2 or IER), a bit in a byte lane whose
strobe bit is 0 is unchanged by the write, and a bit in a strobed lane
takes the written data bit. -/
theorem C8_byte_strobe_frame (map_base : Nat) (s : State) (i : AxiLocalIn)
    (b : Nat) (hwen : i.wen = true) :
    (i.waddr = map_base + INTERRUPT_GEN_PERIOD1 → b < 32 →
      ((step map_base s i).period1).testBit b
        = if i.wstrobe.testBit (b / 8) then i.wdata.testBit b
          else s.period1.testBit b)
    ∧ (i.waddr = map_base + INTERRUPT_GEN_PERIOD2 → b < 32 →
      ((step map_base s i).period2).testBit b
        = if i.wstrobe.testBit (b / 8) then i.wdata.testBit b
          else s.period2.testBit b)
    ∧ (i.waddr = map_base + INTERRUPT_GEN_IER → b < 8 →
      ((step map_base s i).ier).testBit b
        = if i.wstrobe.testBit (b / 8) then i.wdata.testBit b
          else s.ier.testBit b) := by
  refine ⟨?_, ?_, ?_⟩
  · intro haddr hb
    show (period1_write map_base s i).testBit b = _
    rw [period1_write, if_pos (by simp [period1_write_decode, hwen, haddr]),
      testBit_writeBits _ PL_REG_WIDTH b, if_pos (by simpa [PL_REG_WIDTH] using hb)]
  · intro haddr hb
    show (period2_write map_base s i).testBit b = _
    rw [period2_write, if_pos (by simp [period2_write_decode, hwen, haddr]),
      testBit_writeBits _ PL_REG_WIDTH b, if_pos (by simpa [PL_REG_WIDTH] using hb)]
  · intro haddr hb
    show (ier_write map_base s i).testBit b = _
    rw [ier_write, if_pos (by simp [ier_write_decode, hwen, haddr]),
      testBit_writeBits _ 8 b, if_pos hb]

/-- State for the C8 witness: PERIOD1 holds `0x01020304`. -/
def c8State : InterruptGen.State :=
  { period1 := 16909060, period2 := 0, isr := 0, ier := 0, trigger := 0
    period1_counter := 0, period2_counter := 0 }

/-- Input for the C8 witness: write `0xAAAAAAAA` to PERIOD1 with only byte
lane 0 strobed. -/
def c8In : InterruptGen.AxiLocalIn :=
  { raddr := 0, waddr := 0, wdata := 2863311530, wstrobe := 1, wen := true }

open InterruptGen in
theorem C8_byte_strobe_frame_witness :
    ((step 0 c8State c8In).period1).testBit 1 = true
    ∧ ((step 0 c8State c8In).period1).testBit 8 = true := by
  have h1 := (C8_byte_strobe_frame 0 c8State c8In 1 rfl).1 (by decide) (by decide)
  have h8 := (C8_byte_strobe_frame 0 c8State c8In 8 rfl).1 (by decide) (by decide)
  exact ⟨h1.trans (by decide), h8.trans (by decide)⟩

open InterruptGen in
/-- Claim C9: daisy-chain composition.  With a downstream block attached
(`axi_m` present, `some`), `axi_passthrough` forwards the upstream read
address, write address, write data, write strobe and write enable to the
downstream block unchanged (the `some axi_s` component), and drives the
upstream read data with the OR of the downstream read data and this
block's own `register_read` contribution; with no downstream block the
upstream read data is the own contribution alone, which equals the OR
with zero. -/
theorem C9_daisy_chain (axi_s : AxiLocalIn) (mr : Nat) (map_base : Nat)
    (s : State) :
    axi_passthrough axi_s (some mr) (register_read map_base s axi_s.raddr)
      = (some axi_s, mr ||| register_read map_base s axi_s.raddr)
    ∧ axi_passthrough axi_s none (register_read map_base s axi_s.raddr)
      = (none, register_read map_base s axi_s.raddr)
    ∧ register_read map_base s axi_s.raddr
      = register_read map_base s axi_s.raddr ||| 0 :=
  ⟨rfl, rfl, (Nat.or_zero _).symm⟩

namespace InterruptGen

/-- Clocking the block repeatedly with the same local-bus input. -/
def runConst (map_base : Nat) (i : AxiLocalIn) (s : State) : Nat → State
  | 0 => s
  | k + 1 => step map_base (runConst map_base i s k) i

theorem step_no_write_period1 (map_base : Nat) (s : State) (i : AxiLocalIn)
    (h : i.wen = false) : (step map_base s i).period1 = s.period1 := by
  show period1_write map_base s i = s.period1
  simp [period1_write, period1_write_decode, h]

theorem step_no_write_ier (map_base : Nat) (s : State) (i : AxiLocalIn)
    (h : i.wen = false) : (step map_base s i).ier = s.ier := by
  show ier_write map_base s i = s.ier
  simp [ier_write, ier_write_decode, h]

theorem runConst_period1 (map_base : Nat) (i : AxiLocalIn) (s : State)
    (h : i.wen = false) :
    ∀ k, (runConst map_base i s k).period1 = s.period1
  | 0 => rfl
  | k + 1 => by
    rw [runConst, step_no_write_period1 _ _ _ h, runConst_period1 map_base i s h k]

theorem runConst_ier (map_base : Nat) (i : AxiLocalIn) (s : State)
    (h : i.wen = false) :
    ∀ k, (runConst map_base i s k).ier = s.ier
  | 0 => rfl
  | k + 1 => by
    rw [runConst, step_no_write_ier _ _ _ h, runConst_ier map_base i s h k]

theorem runConst_counter (map_base : Nat) (i : AxiLocalIn) (s : State)
    (hw : i.wen = false) (P : Nat) (hP : s.period1 = P) (hP0 : P ≠ 0)
    (hPlt : P < 2 ^ PL_REG_WIDTH) (hc0 : s.period1_counter = 0) :
    ∀ k, (runConst map_base i s k).period1_counter = k % P
  | 0 => by
    show s.period1_counter = 0 % P
    rw [hc0, Nat.zero_mod]
  | k + 1 => by
    have hper : (runConst map_base i s k).period1 = P := by
      rw [runConst_period1 map_base i s hw k, hP]
    have ih := runConst_counter map_base i s hw P hP hP0 hPlt hc0 k
    show handle_period1_counter (runConst map_base i s k) = (k + 1) % P
    unfold handle_period1_counter
    rw [hper, ih, if_neg hP0]
    have hPpos : 0 < P := Nat.pos_of_ne_zero hP0
    have hlt : k % P < P := Nat.mod_lt k hPpos
    by_cases hend : k % P ≥ P - 1
    · have heq : k % P = P - 1 := by omega
      rw [if_pos hend]
      have hnext : (k + 1) % P = 0 := by
        rw [Nat.add_mod, heq]
        by_cases h1 : P = 1
        · subst h1; simp
        · have h1p : 1 % P = 1 := Nat.mod_eq_of_lt (by omega)
          rw [h1p, Nat.sub_add_cancel (by omega), Nat.mod_self]
      omega
    · rw [if_neg hend]
      have h1 : k % P + 1 < P := by omega
      have h2 : (k % P + 1) % 2 ^ PL_REG_WIDTH = k % P + 1 :=
        Nat.mod_eq_of_lt (by omega)
      have hnext : (k + 1) % P = k % P + 1 := by
        rw [Nat.add_mod]
        have h1p : 1 % P = 1 := Nat.mod_eq_of_lt (by omega)
        rw [h1p]
        exact Nat.mod_eq_of_lt h1
      omega

theorem step_p0_counter (map_base : Nat) (s : State) (i : AxiLocalIn)
    (hP : s.period1 = 0) : (step map_base s i).period1_counter = 0 := by
  show handle_period1_counter s = 0
  simp [handle_period1_counter, hP]

theorem step_p0_isr_bit0 (map_base : Nat) (s : State) (i : AxiLocalIn)
    (hw : i.wen = false) (hP : s.period1 = 0)
    (ht : s.trigger.testBit INTERRUPT1_B = false) :
    ((step map_base s i).isr).testBit INTERRUPT1_B
      = s.isr.testBit INTERRUPT1_B := by
  have hnot : ¬(period1_expiry s ∨ trigger_interrupt1 s = true) := by
    rintro (⟨hne, _⟩ | htr)
    · exact hne hP
    · exact absurd htr (by rw [show trigger_interrupt1 s
        = s.trigger.testBit INTERRUPT1_B from rfl, ht]; decide)
  show (isr_write map_base s i).testBit INTERRUPT1_B = _
  rw [isr_write_bit0_no_set map_base s i hnot,
    isr_write_w1c_no_decode map_base s i (by simp [isr_write_decode, hw])]

theorem step_trigger_bit0_stays_clear (map_base : Nat) (s : State)
    (i : AxiLocalIn) (hw : i.wen = false)
    (ht : s.trigger.testBit INTERRUPT1_B = false) :
    ((step map_base s i).trigger).testBit INTERRUPT1_B = false := by
  show (trigger_write map_base s i).testBit INTERRUPT1_B = false
  rw [trigger_write, if_neg (by simp [trigger_write_decode, hw]),
    testBit_writeBits _ 8 INTERRUPT1_B, if_pos (by decide)]
  by_cases h1 : INTERRUPT1_B = INTERRUPT1_B ∧ trigger_interrupt1 s = true
  · rw [if_pos h1]
  · rw [if_neg h1, if_neg (fun h => absurd h.1 (by decide))]
    exact ht

theorem runConst_p0_invariant (map_base : Nat) (i : AxiLocalIn) (s : State)
    (hw : i.wen = false) (hP : s.period1 = 0)
    (ht : s.trigger.testBit INTERRUPT1_B = false) :
    ∀ k, (runConst map_base i s k).period1 = 0
      ∧ (runConst map_base i s k).trigger.testBit INTERRUPT1_B = false
      ∧ (runConst map_base i s k).isr.testBit INTERRUPT1_B
          = s.isr.testBit INTERRUPT1_B
  | 0 => ⟨hP, ht, rfl⟩
  | k + 1 => by
    obtain ⟨ih1, ih2, ih3⟩ := runConst_p0_invariant map_base i s hw hP ht k
    refine ⟨?_, ?_, ?_⟩
    · rw [runConst, step_no_write_period1 _ _ _ hw]; exact ih1
    · exact step_trigger_bit0_stays_clear map_base _ i hw ih2
    · rw [runConst, step_p0_isr_bit0 map_base _ i hw ih1 ih2]; exact ih3

end InterruptGen

open InterruptGen in
/-- Claim C6: with PERIOD1 held at a constant value `P` (no bus writes) and
the counter starting at zero, the counter follows `k % P`, resetting to
zero the cycle after it reaches `P - 1`; on each such expiry cycle ISR
bit 0 is set at the clock edge, so with IER bit 0 = 1 the interrupt-1
output is asserted on the following cycle; with `P = 0` the counter is
held at zero and, absent a trigger, ISR bit 0 never changes. -/
theorem C6_periodic_expiry (map_base : Nat) (P : Nat) (s : State)
    (i : AxiLocalIn) (hw : i.wen = false) (hP : s.period1 = P)
    (hPlt : P < 2 ^ PL_REG_WIDTH) (hc0 : s.period1_counter = 0) :
    (P ≠ 0 → ∀ k,
      (runConst map_base i s k).period1_counter = k % P
      ∧ (k % P = P - 1 →
          ((runConst map_base i s (k + 1)).isr).testBit INTERRUPT1_B = true
          ∧ (s.ier.testBit INTERRUPT1_B = true →
              interrupt1_out (runConst map_base i s (k + 1)) = true)))
    ∧ (P = 0 → ∀ k, (runConst map_base i s k).period1_counter = 0)
    ∧ (P = 0 → s.trigger.testBit INTERRUPT1_B = false → ∀ k,
        ((runConst map_base i s k).isr).testBit INTERRUPT1_B
          = s.isr.testBit INTERRUPT1_B) := by
  refine ⟨?_, ?_, ?_⟩
  · intro hP0 k
    have hcnt := runConst_counter map_base i s hw P hP hP0 hPlt hc0 k
    refine ⟨hcnt, ?_⟩
    intro hk
    have hper : (runConst map_base i s k).period1 = P := by
      rw [runConst_period1 map_base i s hw k, hP]
    have hisr : ((runConst map_base i s (k + 1)).isr).testBit INTERRUPT1_B
        = true := by
      show (isr_write map_base (runConst map_base i s k) i).testBit
        INTERRUPT1_B = true
      exact isr_write_set1 map_base _ i
        (Or.inl ⟨by rw [hper]; exact hP0, by rw [hper, hcnt, hk]⟩)
    refine ⟨hisr, ?_⟩
    intro hier
    have hie : ier_interrupt1 (runConst map_base i s (k + 1)) = true := by
      show ((runConst map_base i s (k + 1)).ier).testBit INTERRUPT1_B = true
      rw [runConst_ier map_base i s hw (k + 1), hier]
    show (ier_interrupt1 (runConst map_base i s (k + 1))
      && ((runConst map_base i s (k + 1)).isr).testBit INTERRUPT1_B) = true
    rw [hie, hisr]
    rfl
  · intro hP0 k
    cases k with
    | zero => exact hc0
    | succ k =>
      exact step_p0_counter map_base _ i
        ((runConst_period1 map_base i s hw k).trans (hP.trans hP0))
  · intro hP0 ht k
    exact (runConst_p0_invariant map_base i s hw (by rw [hP, hP0]) ht k).2.2

/-- State for the C6 witness: PERIOD1 = 3, IER bit 0 enabled, counter 0. -/
def c6State : InterruptGen.State :=
  { period1 := 3, period2 := 0, isr := 0, ier := 1, trigger := 0
    period1_counter := 0, period2_counter := 0 }

open InterruptGen in
theorem C6_periodic_expiry_witness :
    (runConst 0 idleIn c6State 2).period1_counter = 2
    ∧ ((runConst 0 idleIn c6State 3).isr).testBit INTERRUPT1_B = true
    ∧ interrupt1_out (runConst 0 idleIn c6State 3) = true := by
  have h := (C6_periodic_expiry 0 3 c6State idleIn rfl rfl (by decide)
    rfl).1 (by decide) 2
  exact ⟨h.1.trans (by norm_num), (h.2 (by decide)).1,
    (h.2 (by decide)).2 (by decide)⟩

namespace AxiSupport

/-- The external AXI4-Lite inputs sampled by the transducer in one cycle
(`axi_support.py`): write-address, write-data, write-response-ready,
read-address and read-ready channels. -/
structure AxiLiteIn where
  awaddr : Nat
  awvalid : Bool
  wdata : Nat
  wstrb : Nat
  wvalid : Bool
  bready : Bool
  araddr : Nat
  arvalid : Bool
  rready : Bool

/-- The sequential state of `axi_support`: the internal handshake
registers, the response codes, the captured read data and the latched
write/read addresses. -/
structure AxiState where
  axi_awready : Bool
  axi_wready : Bool
  axi_bvalid : Bool
  axi_bresp : Nat
  axi_arready : Bool
  axi_rvalid : Bool
  axi_rresp : Nat
  axi_rdata : Nat
  axi_awaddr : Nat
  axi_araddr : Nat

/-- `axi_awready_generation`: ready pulses for one cycle when both valids
are seen while no write is in flight. -/
def axi_awready_generation (s : AxiState) (i : AxiLiteIn) : Bool :=
  !s.axi_awready && i.awvalid && i.wvalid

/-- `axi_awaddr_latching`: the write address is latched on the same
condition. -/
def axi_awaddr_latching (s : AxiState) (i : AxiLiteIn) : Nat :=
  if !s.axi_awready && i.awvalid && i.wvalid then i.awaddr else s.axi_awaddr

/-- `axi_wready_generation`: identical condition to `axi_awready`. -/
def axi_wready_generation (s : AxiState) (i : AxiLiteIn) : Bool :=
  !s.axi_awready && i.awvalid && i.wvalid

/-- `write_response_logic_generation`: next `(axi_bvalid, axi_bresp)`.
The response asserts with OKAY (0) when the address/data acceptance
cycle is seen; it clears when `S_AXI_BREADY` is observed with it high. -/
def write_response_logic_generation (s : AxiState) (i : AxiLiteIn) :
    Bool × Nat :=
  if s.axi_awready && i.awvalid && !s.axi_bvalid && s.axi_wready && i.wvalid
  then (true, 0)
  else if i.bready && s.axi_bvalid then (false, s.axi_bresp)
  else (s.axi_bvalid, s.axi_bresp)

/-- `axi_arready_generation`: next `(axi_arready, axi_araddr)`. -/
def axi_arready_generation (s : AxiState) (i : AxiLiteIn) : Bool × Nat :=
  if !s.axi_arready && i.arvalid then (true, i.araddr)
  else (false, s.axi_araddr)

/-- `axi_arvalid_generation`: next `(axi_rvalid, axi_rresp)`. -/
def axi_arvalid_generation (s : AxiState) (i : AxiLiteIn) : Bool × Nat :=
  if s.axi_arready && i.arvalid && !s.axi_rvalid then (true, 0)
  else if s.axi_rvalid && i.rready then (false, s.axi_rresp)
  else (s.axi_rvalid, s.axi_rresp)

/-- `memory_read_data`: captures `reg_data` on the read-accept cycle. -/
def memory_read_data (s : AxiState) (i : AxiLiteIn) (reg_data : Nat) : Nat :=
  if s.axi_arready && i.arvalid && !s.axi_rvalid then reg_data
  else s.axi_rdata

/-- One clock edge of the transducer: all `always_seq` blocks evaluated on
the pre-edge state and committed together.  `reg_data` is the local-bus
read data presented by the peripheral chain this cycle. -/
def axiStep (s : AxiState) (i : AxiLiteIn) (reg_data : Nat) : AxiState :=
  { axi_awready := axi_awready_generation s i
    axi_wready := axi_wready_generation s i
    axi_bvalid := (write_response_logic_generation s i).1
    axi_bresp := (write_response_logic_generation s i).2
    axi_arready := (axi_arready_generation s i).1
    axi_araddr := (axi_arready_generation s i).2
    axi_rvalid := (axi_arvalid_generation s i).1
    axi_rresp := (axi_arvalid_generation s i).2
    axi_rdata := memory_read_data s i reg_data
    axi_awaddr := axi_awaddr_latching s i }

/-- `ADDR_LSB = DATA_WIDTH // 32 + 1` with the default 32-bit data width. -/
def ADDR_LSB : Nat := 2

/-- `OPT_MEM_ADDR_BITS = ADDR_WIDTH - ADDR_LSB` with the default 12-bit
address width. -/
def OPT_MEM_ADDR_BITS : Nat := 10

/-- The local-bus signals driven combinationally by `axi_helpers`. -/
structure LocalBusDrive where
  wen : Bool
  raddr : Nat
  waddr : Nat
  wdata : Nat
  wstrobe : Nat

/-- `axi_helpers` from `axi_connect`: the local-bus write enable is the
conjunction of the two internal ready registers with the two external
valids; the local addresses are the word-aligned slices
`[ADDR_LSB + OPT_MEM_ADDR_BITS : ADDR_LSB]` of the latched addresses;
write data and strobe pass straight through. -/
def axi_helpers (s : AxiState) (i : AxiLiteIn) : LocalBusDrive :=
  { wen := s.axi_wready && i.awvalid && s.axi_awready && i.wvalid
    raddr := s.axi_araddr / 2 ^ ADDR_LSB % 2 ^ OPT_MEM_ADDR_BITS
    waddr := s.axi_awaddr / 2 ^ ADDR_LSB % 2 ^ OPT_MEM_ADDR_BITS
    wdata := i.wdata
    wstrobe := i.wstrb }

end AxiSupport

/-- The reset state of the transducer: all handshake flags low, all
registers zero. -/
def c2ResetState : AxiSupport.AxiState :=
  { axi_awready := false, axi_wready := false, axi_bvalid := false
    axi_bresp := 0, axi_arready := false, axi_rvalid := false
    axi_rresp := 0, axi_rdata := 0, axi_awaddr := 0, axi_araddr := 0 }

/-- External input for the C2 theorems: a write of `0xAB` to byte address 8
with full strobe, both valids held, response-ready low. -/
def c2WriteIn : AxiSupport.AxiLiteIn :=
  { awaddr := 8, awvalid := true, wdata := 171, wstrb := 15, wvalid := true
    bready := false, araddr := 0, arvalid := false, rready := false }

open AxiSupport in
/-- Claim C2 counterexample: the claim states that `write_resp_valid`
asserts coincident with the single-cycle local-bus write-enable pulse.
In the source the write-enable (`axi_helpers`) is combinational in
`axi_awready`/`axi_wready`, so it pulses during the ready cycle — one
cycle before `axi_bvalid` rises.  Starting from the reset state with both
valids held, the wen pulse cycle has `bvalid` low and the `bvalid` cycle
has wen low. -/
theorem C2_counterexample :
    (axi_helpers (axiStep c2ResetState c2WriteIn 0) c2WriteIn).wen = true
    ∧ (axiStep c2ResetState c2WriteIn 0).axi_bvalid = false
    ∧ (axiStep (axiStep c2ResetState c2WriteIn 0) c2WriteIn 0).axi_bvalid
        = true
    ∧ (axi_helpers (axiStep (axiStep c2ResetState c2WriteIn 0) c2WriteIn 0)
        c2WriteIn).wen = false := by decide

open AxiSupport in
/-- Claim C2 (amended): while no write is in flight (`axi_awready` low) and
both external valids are asserted (and held), the transducer asserts
`axi_awready` and `axi_wready` for exactly one cycle, latching the write
address at that edge; the single-cycle local-bus write-enable pulse is
coincident with the ready pulses, presenting the latched word-aligned
address together with the incoming write data and byte strobe; one cycle
later, with both readys deasserted, `axi_bvalid` asserts with the OKAY (0)
response code — one cycle after the write-enable pulse, not coincident
with it — and stays high until `S_AXI_BREADY` is observed. -/
theorem C2_write_handshake (s0 : AxiState) (i0 i1 : AxiLiteIn) (d0 d1 : Nat)
    (hrdy : s0.axi_awready = false) (hbv : s0.axi_bvalid = false)
    (hav0 : i0.awvalid = true) (hwv0 : i0.wvalid = true)
    (hav1 : i1.awvalid = true) (hwv1 : i1.wvalid = true) :
    ((axiStep s0 i0 d0).axi_awready = true
      ∧ (axiStep s0 i0 d0).axi_wready = true
      ∧ (axiStep s0 i0 d0).axi_awaddr = i0.awaddr
      ∧ (axiStep s0 i0 d0).axi_bvalid = false)
    ∧ ((axi_helpers (axiStep s0 i0 d0) i1).wen = true
      ∧ (axi_helpers (axiStep s0 i0 d0) i1).waddr
          = i0.awaddr / 2 ^ ADDR_LSB % 2 ^ OPT_MEM_ADDR_BITS
      ∧ (axi_helpers (axiStep s0 i0 d0) i1).wdata = i1.wdata
      ∧ (axi_helpers (axiStep s0 i0 d0) i1).wstrobe = i1.wstrb)
    ∧ ((axiStep (axiStep s0 i0 d0) i1 d1).axi_awready = false
      ∧ (axiStep (axiStep s0 i0 d0) i1 d1).axi_wready = false
      ∧ (axiStep (axiStep s0 i0 d0) i1 d1).axi_bvalid = true
      ∧ (axiStep (axiStep s0 i0 d0) i1 d1).axi_bresp = 0)
    ∧ (∀ i2, (axi_helpers (axiStep (axiStep s0 i0 d0) i1 d1) i2).wen = false)
    ∧ (∀ s i d, s.axi_bvalid = true → i.bready = false →
        (axiStep s i d).axi_bvalid = true) := by
  have h1aw : (axiStep s0 i0 d0).axi_awready = true := by
    show axi_awready_generation s0 i0 = true
    simp [axi_awready_generation, hrdy, hav0, hwv0]
  have h1w : (axiStep s0 i0 d0).axi_wready = true := by
    show axi_wready_generation s0 i0 = true
    simp [axi_wready_generation, hrdy, hav0, hwv0]
  have h1addr : (axiStep s0 i0 d0).axi_awaddr = i0.awaddr := by
    show axi_awaddr_latching s0 i0 = i0.awaddr
    simp [axi_awaddr_latching, hrdy, hav0, hwv0]
  have h1bv : (axiStep s0 i0 d0).axi_bvalid = false := by
    show (write_response_logic_generation s0 i0).1 = false
    simp [write_response_logic_generation, hrdy, hbv]
  have h2aw : (axiStep (axiStep s0 i0 d0) i1 d1).axi_awready = false := by
    show axi_awready_generation (axiStep s0 i0 d0) i1 = false
    simp [axi_awready_generation, h1aw]
  have h2w : (axiStep (axiStep s0 i0 d0) i1 d1).axi_wready = false := by
    show axi_wready_generation (axiStep s0 i0 d0) i1 = false
    simp [axi_wready_generation, h1aw]
  have h2bv : (axiStep (axiStep s0 i0 d0) i1 d1).axi_bvalid = true := by
    show (write_response_logic_generation (axiStep s0 i0 d0) i1).1 = true
    simp [write_response_logic_generation, h1aw, h1w, h1bv, hav1, hwv1]
  have h2br : (axiStep (axiStep s0 i0 d0) i1 d1).axi_bresp = 0 := by
    show (write_response_logic_generation (axiStep s0 i0 d0) i1).2 = 0
    simp [write_response_logic_generation, h1aw, h1w, h1bv, hav1, hwv1]
  refine ⟨⟨h1aw, h1w, h1addr, h1bv⟩, ⟨?_, ?_, rfl, rfl⟩,
    ⟨h2aw, h2w, h2bv, h2br⟩, ?_, ?_⟩
  · show ((axiStep s0 i0 d0).axi_wready && i1.awvalid
      && (axiStep s0 i0 d0).axi_awready && i1.wvalid) = true
    rw [h1aw, h1w, hav1, hwv1]
    rfl
  · show (axiStep s0 i0 d0).axi_awaddr / 2 ^ ADDR_LSB
      % 2 ^ OPT_MEM_ADDR_BITS = _
    rw [h1addr]
  · intro i2
    show ((axiStep (axiStep s0 i0 d0) i1 d1).axi_wready && i2.awvalid
      && (axiStep (axiStep s0 i0 d0) i1 d1).axi_awready && i2.wvalid) = false
    rw [h2w]
    simp
  · intro s i d hb hr
    show (write_response_logic_generation s i).1 = true
    simp [write_response_logic_generation, hb, hr]

open AxiSupport in
theorem C2_write_handshake_witness :
    (axi_helpers (axiStep c2ResetState c2WriteIn 0) c2WriteIn).wen = true
    ∧ (axiStep (axiStep c2ResetState c2WriteIn 0) c2WriteIn 0).axi_bvalid
        = true :=
  ⟨(C2_write_handshake c2ResetState c2WriteIn c2WriteIn 0 0
      rfl rfl rfl rfl rfl rfl).2.1.1,
   (C2_write_handshake c2ResetState c2WriteIn c2WriteIn 0 0
      rfl rfl rfl rfl rfl rfl).2.2.1.2.2.1⟩
